import Mathlib

/-!
Verification of the todo-molten backend (src/app.py): a shallow embedding of
the SQLite-backed todo repository, its HTTP handlers and the CORS middleware,
with theorems about the data model and request/response contract.
-/

namespace TodoMolten

/-- Stored row of the `todos` table, created by
`create table if not exists todos(title text, completed bool, "order" int)`.
SQLite stores a bound Python bool as the integer 1/0 and `None` as NULL,
so the stored `completed` value is a nullable integer. -/
structure Row where
  title : Option String
  completed : Option Int
  order : Option Int
deriving DecidableEq

/-- The `todos` table: rows keyed by their SQLite rowid, kept in rowid order
(inserts append with a fresh, strictly larger rowid). -/
abbrev Table := List (Nat × Row)

/-- The molten `@schema class Todo`. Field defaults mirror the schema load of a
request body: a plain `Optional` field missing from the body becomes null, and
`completed` has the declared default `False` — so the body that supplies no
field at all yields `completed = some false`, not `none`. -/
structure Todo where
  id : Option Nat := none
  title : Option String := none
  order : Option Int := none
  url : Option String := none
  completed : Option Bool := some false
deriving DecidableEq

/-- Largest rowid present in the table (0 for the empty table). -/
def rowidMax (t : Table) : Nat :=
  t.foldr (fun p m => max p.1 m) 0

/-- `insert into todos(title, completed, "order") values(?, ?, ?)`:
SQLite assigns the new row a rowid one larger than the largest in use;
returns the new table and `cursor.lastrowid`. -/
def sqlInsert (t : Table) (r : Row) : Table × Nat :=
  let rid := rowidMax t + 1
  (t ++ [(rid, r)], rid)

/-- `select rowid as id, title, completed, "order" from todos where rowid = ? limit 1`
followed by `fetchone()`: the first row whose rowid matches, if any. -/
def sqlSelectById (t : Table) (rid : Nat) : Option (Nat × Row) :=
  (t.filter (fun p => p.1 == rid)).head?

/-- `update todos set title = ?, completed = ?, "order" = ? where rowid = ?`:
every matching row has all three columns overwritten. -/
def sqlUpdateById (t : Table) (rid : Nat) (r : Row) : Table :=
  t.map (fun p => if p.1 == rid then (p.1, r) else p)

/-- `delete from todos where rowid = ?`: drops the matching rows; deleting a
rowid that is absent matches zero rows and is not an error. -/
def sqlDeleteById (t : Table) (rid : Nat) : Table :=
  t.filter (fun p => p.1 != rid)

/-- SQLite comparison on the nullable `"order"` column: NULL sorts below every
integer, integers compare numerically. -/
def orderLe : Option Int → Option Int → Bool
  | none, _ => true
  | some _, none => false
  | some a, some b => a ≤ b

/-- Row comparison realising `order by "order" desc`: a row comes no later
than another when its `order` value is no smaller under `orderLe`. -/
def descRel (a b : Nat × Row) : Prop :=
  orderLe b.2.order a.2.order = true

instance : DecidableRel descRel := fun a b => by
  unfold descRel; infer_instance

/-- The fixed absolute-URL base used by `_map_todo`. -/
def urlBase : String := "https://todo-molten.herokuapp.com/v1/todos/"

/-- `TodoManager._map_todo`: turns a fetched row into an API `Todo`, converting
the stored `completed` value by `False if data["completed"] == 0 else True`
(so NULL, like any non-zero integer, maps to `True`) and synthesizing `url`. -/
def map_todo (p : Nat × Row) : Todo :=
  { id := some p.1
    title := p.2.title
    order := p.2.order
    url := some (urlBase ++ toString p.1)
    completed := some (if p.2.completed = some 0 then false else true) }

/-- How sqlite3 binds an optional Python bool parameter: `True` ↦ 1, `False` ↦ 0,
`None` ↦ NULL. -/
def storedOfBool : Option Bool → Option Int
  | none => none
  | some b => some (if b then 1 else 0)

/-- The column values `[todo.title, todo.completed, todo.order]` bound by the
insert and update statements. -/
def rowOfTodo (todo : Todo) : Row :=
  { title := todo.title
    completed := storedOfBool todo.completed
    order := todo.order }

/-- `TodoManager.get_by_id`: single-row lookup, `None` when no row matches. -/
def get_by_id (t : Table) (rid : Nat) : Option Todo :=
  (sqlSelectById t rid).map map_todo

/-- `TodoManager.create`: insert, then read the fresh record back by
`cursor.lastrowid`. -/
def create (t : Table) (todo : Todo) : Table × Option Todo :=
  let (t1, rid) := sqlInsert t (rowOfTodo todo)
  (t1, get_by_id t1 rid)

/-- `TodoManager.get_all`: `select ... order by "order" desc`, each row mapped
through `_map_todo`. -/
def get_all (t : Table) : List Todo :=
  (List.insertionSort descRel t).map map_todo

/-- The merge loop of `TodoManager.update_by_id`: for each of title, completed
and order, a non-`None` value from `updates` overwrites the loaded value. -/
def mergeUpdates (todo updates : Todo) : Todo :=
  { todo with
    title := match updates.title with
      | some v => some v
      | none => todo.title
    completed := match updates.completed with
      | some v => some v
      | none => todo.completed
    order := match updates.order with
      | some v => some v
      | none => todo.order }

/-- `TodoManager.update_by_id`: load, merge non-`None` fields, persist the
merged record, read it back; `None` (and no table change) when the id is
absent. -/
def update_by_id (t : Table) (rid : Nat) (updates : Todo) : Table × Option Todo :=
  match get_by_id t rid with
  | none => (t, none)
  | some todo =>
    let merged := mergeUpdates todo updates
    let t1 := sqlUpdateById t rid (rowOfTodo merged)
    (t1, get_by_id t1 rid)

/-- `TodoManager.delete_by_id`. -/
def delete_by_id (t : Table) (rid : Nat) : Table :=
  sqlDeleteById t rid

/-- `TodoManager.delete_all`: `delete from todos`. -/
def delete_all (_t : Table) : Table :=
  []

/-- molten's `HTTP_201` status line. -/
def HTTP_201 : String := "201 Created"

/-- molten's `HTTP_204` status line. -/
def HTTP_204 : String := "204 No Content"

/-- molten's `HTTP_404` status line. -/
def HTTP_404 : String := "404 Not Found"

/-- The JSON error body raised by the 404 handlers: an object whose single
`error` key holds the given message. -/
structure ErrorBody where
  error : String
deriving DecidableEq

/-- The f-string body of the not-found `HTTPError`. -/
def notFoundBody (todo_id : String) : ErrorBody :=
  { error := "todo " ++ todo_id ++ " not found" }

/-- `get_todo` handler for GET /v1/todos/(id): the fetched todo, or an
`HTTPError(HTTP_404, ...)` when absent. -/
def get_todo (todo_id : Nat) (t : Table) : Except (String × ErrorBody) Todo :=
  match get_by_id t todo_id with
  | none => .error (HTTP_404, notFoundBody (toString todo_id))
  | some todo => .ok todo

/-- `create_todo` handler for POST /v1/todos: 201 with the created record. -/
def create_todo (todo : Todo) (t : Table) : Table × String × Option Todo :=
  let (t1, r) := create t todo
  (t1, HTTP_201, r)

/-- `update_todo` handler for PATCH /v1/todos/(id): the updated todo, or an
`HTTPError(HTTP_404, ...)` when absent. -/
def update_todo (todo_id : Nat) (todo : Todo) (t : Table) :
    Table × Except (String × ErrorBody) Todo :=
  match update_by_id t todo_id todo with
  | (t1, none) => (t1, .error (HTTP_404, notFoundBody (toString todo_id)))
  | (t1, some td) => (t1, .ok td)

/-- `delete_todo` handler for DELETE /v1/todos/(id): always 204 with no body. -/
def delete_todo (todo_id : Nat) (t : Table) : Table × String × Option Todo :=
  (delete_by_id t todo_id, HTTP_204, none)

/-- An HTTP response as the CORS middleware sees it: status line plus a
multi-valued header list (molten's `HeadersDict`). -/
structure Response where
  status : String
  headers : List (String × String)

/-- The header dict built by `CORSMiddleware.__call__`. -/
def corsHeaders : List (String × String) :=
  [("access-control-allow-origin", "*"),
   ("access-control-allow-headers", "Accept, Content-Type"),
   ("access-control-allow-methods", "*")]

/-- `CORSMiddleware`: calls the wrapped handler and does
`response.headers.add_all(headers)`, appending each CORS header to whatever
headers the response already carries, unconditionally for every response. -/
def cors_apply (resp : Response) : Response :=
  { resp with headers := resp.headers ++ corsHeaders }

/-- The `Todo` the schema loads from the empty JSON body: every plain optional
field is null and `completed` takes its declared default `False`. -/
def emptyPatch : Todo := {}

/-- The `Todo` the schema loads from a body supplying only `completed = true`. -/
def completedTruePatch : Todo := { completed := some true }

/-- The sqlite3 connection as the scoped-cursor helper manipulates it:
the last committed table and the current (possibly uncommitted) table. -/
structure Conn where
  committed : Table
  current : Table
deriving DecidableEq

/-- A computation against the connection. The oracle argument decides, per
statement-execution index, whether that `cursor.execute` raises; the result is
the outcome (a raised exception or a value), the final connection, and the next
statement index. -/
def Tx (α : Type) : Type :=
  (Nat → Bool) → Conn → Nat → Except Unit α × Conn × Nat

/-- Return without touching the connection. -/
def Tx.pure (a : α) : Tx α := fun _ c n => (.ok a, c, n)

/-- Sequencing: a raised exception propagates, carrying the connection along. -/
def Tx.bind (m : Tx α) (f : α → Tx β) : Tx β := fun o c n =>
  match m o c n with
  | (.ok a, c1, n1) => f a o c1 n1
  | (.error e, c1, n1) => (.error e, c1, n1)

/-- `cursor.execute(...)`: either raises (as the oracle dictates), leaving the
uncommitted state as it was, or applies the statement to the current table. -/
def execStmt (f : Table → α × Table) : Tx α := fun o c n =>
  if o n then (.error (), c, n + 1)
  else
    let (a, t) := f c.current
    (.ok a, { c with current := t }, n + 1)

/-- `DB.get_cursor`: runs the body; on success `self._db.commit()` makes the
current table the committed one; on an exception `self._db.rollback()` restores
the current table to the committed one and the exception is re-raised. A nested
scope commits or rolls back the whole connection, exactly as sqlite3 does. -/
def get_cursor (body : Tx α) : Tx α := fun o c n =>
  match body o c n with
  | (.ok a, c1, n1) => (.ok a, { committed := c1.current, current := c1.current }, n1)
  | (.error e, c1, n1) => (.error e, { committed := c1.committed, current := c1.committed }, n1)

/-- `TodoManager.get_by_id` with its cursor scope made explicit. -/
def get_by_id_tx (rid : Nat) : Tx (Option Todo) :=
  get_cursor (Tx.bind (execStmt (fun t => (sqlSelectById t rid, t)))
    (fun data => Tx.pure (data.map map_todo)))

/-- `TodoManager.create` with its cursor scopes made explicit: the read-back
`get_by_id` opens its own nested cursor inside the insert's scope. -/
def create_tx (todo : Todo) : Tx (Option Todo) :=
  get_cursor (Tx.bind (execStmt (fun t =>
      let p := sqlInsert t (rowOfTodo todo)
      (p.2, p.1)))
    (fun rid => get_by_id_tx rid))

/-- `TodoManager.get_all` with its cursor scope made explicit. -/
def get_all_tx : Tx (List Todo) :=
  get_cursor (Tx.bind (execStmt (fun t => (List.insertionSort descRel t, t)))
    (fun rows => Tx.pure (rows.map map_todo)))

/-- `TodoManager.update_by_id` with its cursor scopes made explicit: the
initial load runs in its own scope; the update statement and the read-back
(itself a nested scope) share the second scope. -/
def update_by_id_tx (rid : Nat) (updates : Todo) : Tx (Option Todo) :=
  Tx.bind (get_by_id_tx rid) (fun todo? =>
    match todo? with
    | some todo =>
      get_cursor (Tx.bind (execStmt (fun t =>
          ((), sqlUpdateById t rid (rowOfTodo (mergeUpdates todo updates)))))
        (fun _ => get_by_id_tx rid))
    | none => Tx.pure none)

/-- `TodoManager.delete_by_id` with its cursor scope made explicit. -/
def delete_by_id_tx (rid : Nat) : Tx Unit :=
  get_cursor (execStmt (fun t => ((), sqlDeleteById t rid)))

/-- `TodoManager.delete_all` with its cursor scope made explicit. -/
def delete_all_tx : Tx Unit :=
  get_cursor (execStmt (fun _ => ((), ([] : Table))))

/-- Atomicity of a transactional operation started on a quiescent connection
holding table `s`: a raised failure leaves both the committed and the current
table exactly as they were, and a success leaves no uncommitted work behind. -/
def atomicFrom (m : Tx α) (s : Table) : Prop :=
  ∀ o : Nat → Bool,
    match m o { committed := s, current := s } 0 with
    | (.error _, c, _) => c.committed = s ∧ c.current = s
    | (.ok _, c, _) => c.committed = c.current

/-- Failing input exhibiting the empty-body PATCH bug: a single stored todo
whose `completed` column holds 1 (true). -/
def exTable : Table :=
  [(1, { title := some "a", completed := some 1, order := some 1 })]

/-- Todo payload with the given order value, as used to build `exTable3`. -/
def orderedPayload (i : Int) : Todo :=
  { title := some "t", order := some i }

/-- Three todos created with order values 1, 3, 2 in that insertion order. -/
def exTable3 : Table :=
  (create (create (create [] (orderedPayload 1)).1 (orderedPayload 3)).1 (orderedPayload 2)).1

theorem rowid_le_rowidMax {t : Table} {p : Nat × Row} (h : p ∈ t) : p.1 ≤ rowidMax t := by
  induction t with
  | nil => cases h
  | cons q t ih =>
    rcases List.mem_cons.mp h with h1 | h1
    · subst h1; simp [rowidMax]
    · have := ih h1
      simp [rowidMax] at this ⊢
      right; exact this

theorem sqlSelectById_absent_iff (t : Table) (rid : Nat) :
    sqlSelectById t rid = none ↔ ∀ p ∈ t, p.1 ≠ rid := by
  unfold sqlSelectById
  rw [List.head?_eq_none_iff, List.filter_eq_nil_iff]
  simp

theorem sqlSelectById_append_fresh (t : Table) (rid : Nat) (r : Row)
    (h : rowidMax t < rid) : sqlSelectById (t ++ [(rid, r)]) rid = some (rid, r) := by
  have hnil : t.filter (fun p => p.1 == rid) = [] := by
    apply List.filter_eq_nil_iff.mpr
    intro p hp
    have := rowid_le_rowidMax hp
    simp only [beq_iff_eq]
    omega
  simp [sqlSelectById, List.filter_append, hnil]

theorem sqlSelectById_key {t : Table} {rid : Nat} {pr : Nat × Row}
    (h : sqlSelectById t rid = some pr) : pr.1 = rid := by
  have hmem : pr ∈ t.filter (fun p => p.1 == rid) := by
    unfold sqlSelectById at h
    exact List.mem_of_mem_head? h
  have := List.of_mem_filter hmem
  simpa using this

theorem sqlSelectById_update (t : Table) (rid : Nat) (r : Row) :
    sqlSelectById (sqlUpdateById t rid r) rid
      = (sqlSelectById t rid).map (fun pr => (pr.1, r)) := by
  induction t with
  | nil => rfl
  | cons q t ih =>
    by_cases h : q.1 = rid
    · simp [sqlSelectById, sqlUpdateById, List.filter_cons, h]
    · simp [sqlSelectById, sqlUpdateById, List.filter_cons, h] at ih ⊢
      exact ih

theorem sqlSelectById_update_ne (t : Table) (rid j : Nat) (r : Row) (h : j ≠ rid) :
    sqlSelectById (sqlUpdateById t rid r) j = sqlSelectById t j := by
  induction t with
  | nil => rfl
  | cons q t ih =>
    by_cases hq : q.1 = rid
    · have hj : ¬ (q.1 = j) := by omega
      simp [sqlSelectById, sqlUpdateById, List.filter_cons, hq, hj, Ne.symm h] at ih ⊢
      exact ih
    · by_cases hqj : q.1 = j
      · simp [sqlSelectById, sqlUpdateById, List.filter_cons, hq, hqj, h]
      · simp [sqlSelectById, sqlUpdateById, List.filter_cons, hq, hqj] at ih ⊢
        exact ih

theorem sqlSelectById_delete (t : Table) (rid : Nat) :
    sqlSelectById (sqlDeleteById t rid) rid = none := by
  induction t with
  | nil => rfl
  | cons q t ih =>
    by_cases h : q.1 = rid
    · simpa [sqlDeleteById, List.filter_cons, h] using ih
    · simpa [sqlSelectById, sqlDeleteById, List.filter_cons, h] using ih

theorem sqlDeleteById_absent {t : Table} {rid : Nat}
    (h : sqlSelectById t rid = none) : sqlDeleteById t rid = t := by
  have h1 := (sqlSelectById_absent_iff t rid).mp h
  unfold sqlDeleteById
  apply List.filter_eq_self.mpr
  intro p hp
  simpa using h1 p hp

theorem sqlDeleteById_idem (t : Table) (rid : Nat) :
    sqlDeleteById (sqlDeleteById t rid) rid = sqlDeleteById t rid := by
  simp [sqlDeleteById, List.filter_filter]

theorem orderLe_total (a b : Option Int) : orderLe a b = true ∨ orderLe b a = true := by
  cases a <;> cases b <;> simp [orderLe] <;> omega

theorem orderLe_trans {a b c : Option Int} (h1 : orderLe a b = true)
    (h2 : orderLe b c = true) : orderLe a c = true := by
  cases a <;> cases b <;> cases c <;> simp [orderLe] at h1 h2 ⊢ <;> omega

instance : IsTotal (Nat × Row) descRel :=
  ⟨fun a b => (orderLe_total b.2.order a.2.order).elim Or.inl Or.inr⟩

instance : IsTrans (Nat × Row) descRel :=
  ⟨fun _ _ _ h1 h2 => orderLe_trans h2 h1⟩

theorem get_by_id_fields {t : Table} {rid : Nat} {td : Todo}
    (h : get_by_id t rid = some td) :
    td.id = some rid ∧ td.url = some (urlBase ++ toString rid)
    ∧ td.completed.isSome = true := by
  unfold get_by_id at h
  obtain ⟨pr, hpr, rfl⟩ := Option.map_eq_some'.mp h
  have hk := sqlSelectById_key hpr
  subst hk
  simp [map_todo]

/-- C1: the claim says `updateById(id, x7b x7d)` with an empty partial update
leaves the stored record unchanged. It does not: the schema gives the missing
`completed` field its declared default `False`, so the merge loop sees a
non-`None` value and overwrites the stored flag. On a todo whose stored
`completed` is 1 (true), the empty-body PATCH resets it to 0 (false), both in
the stored row and in the returned record. -/
theorem empty_patch_overwrites_completed :
    (get_by_id exTable 1).map Todo.completed = some (some true)
    ∧ ((update_by_id exTable 1 emptyPatch).2).map Todo.completed = some (some false)
    ∧ (update_by_id exTable 1 emptyPatch).1
        = [(1, ({ title := some "a", completed := some 0, order := some 1 } : Row))] := by
  decide

/-- C2: every repository operation (create, getAll, getById, updateById,
deleteById, deleteAll), run on a quiescent connection, is atomic: whichever
statement execution raises, the failure is re-raised with the committed and
current tables exactly as they were before the operation began, and a
successful run leaves no uncommitted work behind. -/
theorem repo_ops_atomic (s : Table) (todo updates : Todo) (rid : Nat) :
    atomicFrom (create_tx todo) s
    ∧ atomicFrom get_all_tx s
    ∧ atomicFrom (get_by_id_tx rid) s
    ∧ atomicFrom (update_by_id_tx rid updates) s
    ∧ atomicFrom (delete_by_id_tx rid) s
    ∧ atomicFrom delete_all_tx s := by
  refine ⟨?_, ?_, ?_, ?_, ?_, ?_⟩
  · intro o
    by_cases h0 : o 0
    · simp [create_tx, get_by_id_tx, get_cursor, Tx.bind, Tx.pure, execStmt, h0]
    · by_cases h1 : o 1 <;>
        simp [create_tx, get_by_id_tx, get_cursor, Tx.bind, Tx.pure, execStmt, h0, h1]
  · intro o
    by_cases h0 : o 0 <;>
      simp [get_all_tx, get_cursor, Tx.bind, Tx.pure, execStmt, h0]
  · intro o
    by_cases h0 : o 0 <;>
      simp [get_by_id_tx, get_cursor, Tx.bind, Tx.pure, execStmt, h0]
  · intro o
    by_cases h0 : o 0
    · simp [update_by_id_tx, get_by_id_tx, get_cursor, Tx.bind, Tx.pure, execStmt, h0]
    · rcases hsel : sqlSelectById s rid with _ | pr
      · simp [update_by_id_tx, get_by_id_tx, get_cursor, Tx.bind, Tx.pure, execStmt, h0, hsel]
      · by_cases h1 : o 1
        · simp [update_by_id_tx, get_by_id_tx, get_cursor, Tx.bind, Tx.pure, execStmt,
            h0, h1, hsel]
        · by_cases h2 : o 2 <;>
            simp [update_by_id_tx, get_by_id_tx, get_cursor, Tx.bind, Tx.pure, execStmt,
              h0, h1, h2, hsel]
  · intro o
    by_cases h0 : o 0 <;>
      simp [delete_by_id_tx, get_cursor, Tx.bind, Tx.pure, execStmt, h0]
  · intro o
    by_cases h0 : o 0 <;>
      simp [delete_all_tx, get_cursor, Tx.bind, Tx.pure, execStmt, h0]

/-- C3: the CORS middleware adds `access-control-allow-origin: *` together
with the allow-headers and allow-methods headers to every response it passes
through, whatever the status or prior headers — so success, error and 404
responses alike carry them. -/
theorem cors_headers_on_every_response (resp : Response) :
    ("access-control-allow-origin", "*") ∈ (cors_apply resp).headers
    ∧ ("access-control-allow-headers", "Accept, Content-Type") ∈ (cors_apply resp).headers
    ∧ ("access-control-allow-methods", "*") ∈ (cors_apply resp).headers := by
  simp [cors_apply, corsHeaders]

/-- C4: `get_all` returns a permutation of all stored rows, sorted so that
larger `order` values come first; on the table built by inserting todos with
order values 1, 3, 2 the returned order values are 3, 2, 1. -/
theorem get_all_sorted_desc (t : Table) :
    (get_all t).Perm (t.map map_todo)
    ∧ (get_all t).Pairwise (fun a b => orderLe b.order a.order = true)
    ∧ (get_all exTable3).map Todo.order = [some 3, some 2, some 1] := by
  refine ⟨?_, ?_, by decide⟩
  · exact (List.perm_insertionSort descRel t).map map_todo
  · have hs := List.sorted_insertionSort descRel t
    exact List.Pairwise.map map_todo (fun a b h => h) hs

/-- C5: when no row matches an id, `get_by_id` returns the explicit absent
signal `none` rather than raising, and the GET and PATCH handlers respond 404
with body exactly the object whose `error` key is "todo (id) not found"; the
PATCH handler also leaves the table untouched. -/
theorem absent_id_explicit_404 (t : Table) (rid : Nat) (u : Todo)
    (h : sqlSelectById t rid = none) :
    get_by_id t rid = none
    ∧ get_todo rid t = .error (HTTP_404, notFoundBody (toString rid))
    ∧ (update_todo rid u t).2 = .error (HTTP_404, notFoundBody (toString rid))
    ∧ (update_todo rid u t).1 = t := by
  have h1 : get_by_id t rid = none := by simp [get_by_id, h]
  refine ⟨h1, ?_, ?_, ?_⟩
  · simp [get_todo, h1]
  · simp [update_todo, update_by_id, h1]
  · simp [update_todo, update_by_id, h1]

/-- Witness for C5 at id 42 on the empty table: the 404 body is exactly
"todo 42 not found" under the `error` key. -/
theorem absent_id_explicit_404_witness :
    get_todo 42 ([] : Table) = .error (HTTP_404, notFoundBody (toString 42))
    ∧ notFoundBody (toString 42) = { error := "todo 42 not found" } :=
  ⟨(absent_id_explicit_404 [] 42 emptyPatch rfl).2.1, rfl⟩

/-- C6: on an existing todo, `update_by_id` with the body supplying only
`completed = true` stores `title` and `order` unchanged and `completed` as 1;
the returned record keeps the pre-state title and order with completed true,
and every other row of the table is untouched. -/
theorem update_completed_true_frame (t : Table) (rid : Nat) (row : Row)
    (h : sqlSelectById t rid = some (rid, row)) :
    (update_by_id t rid completedTruePatch).1
      = sqlUpdateById t rid { title := row.title, completed := some 1, order := row.order }
    ∧ (update_by_id t rid completedTruePatch).2
      = some { id := some rid, title := row.title, order := row.order,
               url := some (urlBase ++ toString rid), completed := some true }
    ∧ (∀ j, j ≠ rid →
        sqlSelectById (update_by_id t rid completedTruePatch).1 j = sqlSelectById t j) := by
  have hget : get_by_id t rid = some (map_todo (rid, row)) := by
    simp [get_by_id, h]
  have hrow : rowOfTodo (mergeUpdates (map_todo (rid, row)) completedTruePatch)
      = { title := row.title, completed := some 1, order := row.order } := by
    simp [rowOfTodo, mergeUpdates, map_todo, completedTruePatch, storedOfBool]
  have hupd : sqlSelectById (sqlUpdateById t rid
        { title := row.title, completed := some 1, order := row.order }) rid
      = some (rid, { title := row.title, completed := some 1, order := row.order }) := by
    rw [sqlSelectById_update, h]
    rfl
  refine ⟨?_, ?_, ?_⟩
  · simp [update_by_id, hget, hrow]
  · have hstep : (update_by_id t rid completedTruePatch).2
        = (sqlSelectById (sqlUpdateById t rid
            (rowOfTodo (mergeUpdates (map_todo (rid, row)) completedTruePatch))) rid).map map_todo := by
      simp [update_by_id, get_by_id, h]
    rw [hstep, hrow, hupd]
    simp [map_todo]
  · intro j hj
    simp only [update_by_id, hget, hrow]
    exact sqlSelectById_update_ne t rid j _ hj

/-- Witness for C6 on the one-row table: the PATCH supplying only completed
true returns the record with the original title and order. -/
theorem update_completed_true_frame_witness :
    (update_by_id exTable 1 completedTruePatch).2
      = some { id := some 1, title := some "a", order := some 1,
               url := some (urlBase ++ toString 1), completed := some true } :=
  (update_completed_true_frame exTable 1
    { title := some "a", completed := some 1, order := some 1 } (by decide)).2.1

/-- C7: `delete_by_id` removes the matching row, is a no-op (not an error)
when the id is absent, is idempotent, and the DELETE handler responds 204
with no body regardless of prior existence. -/
theorem delete_by_id_noop_idempotent (t : Table) (rid : Nat) :
    sqlSelectById (delete_by_id t rid) rid = none
    ∧ (sqlSelectById t rid = none → delete_by_id t rid = t)
    ∧ delete_by_id (delete_by_id t rid) rid = delete_by_id t rid
    ∧ delete_todo rid t = (delete_by_id t rid, HTTP_204, none) :=
  ⟨sqlSelectById_delete t rid, fun h => sqlDeleteById_absent h, sqlDeleteById_idem t rid, rfl⟩

/-- Witness for C7 at the absent id 7 on the one-row table: deleting is a
no-op and the handler still answers 204. -/
theorem delete_by_id_noop_idempotent_witness :
    delete_by_id exTable 7 = exTable
    ∧ delete_todo 7 exTable = (delete_by_id exTable 7, HTTP_204, none) := by
  have h := delete_by_id_noop_idempotent exTable 7
  exact ⟨h.2.1 (by decide), h.2.2.2⟩

/-- C8: `create` returns the freshly inserted record read back by its new
rowid, with `id` present on the response; creating from the body supplying
title "a" and order 1 (no completed) yields a record with completed false. -/
theorem create_reads_back (t : Table) (todo : Todo) :
    (create t todo).2 = some (map_todo (rowidMax t + 1, rowOfTodo todo))
    ∧ (create t todo).2 = get_by_id (create t todo).1 (rowidMax t + 1)
    ∧ ((create t todo).2).map Todo.id = some (some (rowidMax t + 1))
    ∧ ((create t { title := some "a", order := some 1 }).2).map Todo.completed
        = some (some false) := by
  have hsel : ∀ td : Todo, sqlSelectById (t ++ [(rowidMax t + 1, rowOfTodo td)]) (rowidMax t + 1)
      = some (rowidMax t + 1, rowOfTodo td) := fun td =>
    sqlSelectById_append_fresh t _ _ (Nat.lt_succ_self _)
  refine ⟨?_, rfl, ?_, ?_⟩
  · simp [create, sqlInsert, get_by_id, hsel todo]
  · simp [create, sqlInsert, get_by_id, hsel todo, map_todo]
  · have h2 : sqlSelectById
        (t ++ [(rowidMax t + 1, ({ title := some "a", completed := some 0, order := some 1 } : Row))])
        (rowidMax t + 1)
        = some (rowidMax t + 1, ({ title := some "a", completed := some 0, order := some 1 } : Row)) :=
      hsel { title := some "a", order := some 1 }
    simp [create, sqlInsert, get_by_id, h2, map_todo, rowOfTodo, storedOfBool]

/-- C9: `_map_todo` normalizes the stored completed value on every read: a
stored 0 maps to false and any non-zero stored integer maps to true, and
every record returned by get_by_id, get_all, create or update_by_id carries a
present (strictly boolean) completed field. -/
theorem completed_normalized_on_read (t : Table) (rid : Nat) (row : Row) (n : Int)
    (u : Todo) (td : Todo) :
    (row.completed = some 0 → (map_todo (rid, row)).completed = some false)
    ∧ (row.completed = some n → n ≠ 0 → (map_todo (rid, row)).completed = some true)
    ∧ (get_by_id t rid = some td → td.completed.isSome = true)
    ∧ (td ∈ get_all t → td.completed.isSome = true)
    ∧ ((create t u).2 = some td → td.completed.isSome = true)
    ∧ ((update_by_id t rid u).2 = some td → td.completed.isSome = true) := by
  refine ⟨?_, ?_, ?_, ?_, ?_, ?_⟩
  · intro h; simp [map_todo, h]
  · intro h hn; simp [map_todo, h, hn]
  · intro h; exact (get_by_id_fields h).2.2
  · intro h
    simp only [get_all, List.mem_map] at h
    obtain ⟨pr, _, rfl⟩ := h
    simp [map_todo]
  · intro h
    simp only [create, sqlInsert] at h
    exact (get_by_id_fields h).2.2
  · intro h
    unfold update_by_id at h
    rcases hg : get_by_id t rid with _ | todo
    · simp [hg] at h
    · simp only [hg] at h
      exact (get_by_id_fields h).2.2

/-- Witness for C9: a stored 1 reads back as true and a stored 0 as false. -/
theorem completed_normalized_on_read_witness :
    (map_todo (1, ({ title := some "a", completed := some 1, order := some 1 } : Row))).completed
      = some true
    ∧ (map_todo (2, ({ title := none, completed := some 0, order := none } : Row))).completed
      = some false :=
  ⟨(completed_normalized_on_read exTable 1
      { title := some "a", completed := some 1, order := some 1 }
      1 emptyPatch emptyPatch).2.1 rfl (by decide),
   (completed_normalized_on_read exTable 2
      { title := none, completed := some 0, order := none }
      1 emptyPatch emptyPatch).1 rfl⟩

/-- C10: every record returned by get_by_id, get_all, create or update_by_id
carries a non-null url equal to the fixed base string followed by that
record's id. -/
theorem url_field_synthesized (t : Table) (rid : Nat) (u : Todo) (td : Todo) :
    (get_by_id t rid = some td → td.id = some rid ∧ td.url = some (urlBase ++ toString rid))
    ∧ (td ∈ get_all t → ∃ i, td.id = some i ∧ td.url = some (urlBase ++ toString i))
    ∧ ((create t u).2 = some td → ∃ i, td.id = some i ∧ td.url = some (urlBase ++ toString i))
    ∧ ((update_by_id t rid u).2 = some td
        → td.id = some rid ∧ td.url = some (urlBase ++ toString rid)) := by
  refine ⟨?_, ?_, ?_, ?_⟩
  · intro h; exact ⟨(get_by_id_fields h).1, (get_by_id_fields h).2.1⟩
  · intro h
    simp only [get_all, List.mem_map] at h
    obtain ⟨pr, _, rfl⟩ := h
    exact ⟨pr.1, by simp [map_todo]⟩
  · intro h
    simp only [create, sqlInsert] at h
    exact ⟨rowidMax t + 1, (get_by_id_fields h).1, (get_by_id_fields h).2.1⟩
  · intro h
    unfold update_by_id at h
    rcases hg : get_by_id t rid with _ | todo
    · simp [hg] at h
    · simp only [hg] at h
      exact ⟨(get_by_id_fields h).1, (get_by_id_fields h).2.1⟩

/-- Witness for C10 on the one-row table: the record fetched by id 1 carries
the synthesized url for id 1. -/
theorem url_field_synthesized_witness :
    (map_todo (1, ({ title := some "a", completed := some 1, order := some 1 } : Row))).id = some 1
    ∧ (map_todo (1, ({ title := some "a", completed := some 1, order := some 1 } : Row))).url
      = some (urlBase ++ toString 1) :=
  (url_field_synthesized exTable 1 emptyPatch _).1 (by decide)

end TodoMolten
